import Mathlib

/-!
Verification of the QEMU Xilinx generic loader device
(`hw/core/generic-loader.c`): a shallow embedding of
`generic_loader_realize` (configuration validation, CPU resolution, image
loading, endianness conversion, register-default parsing, reset-callback
registration and the immediate hot-plug reset) and `generic_loader_reset`
(PC override, register-default application, bounded literal write), with
theorems about the behaviour of these functions.

Machine integers are modelled as `Nat` with explicit wrapping where the C
stores into a fixed-width field; C strings are modelled as `List Char`;
fallible paths return `Option` / an explicit result type, with `none` /
`crashed` standing for an assertion failure or a null-pointer dereference.
-/

set_option maxRecDepth 20000

namespace GenericLoader

/-- One byte of a natural number at little-endian byte position `i`. -/
def byteAt (x i : Nat) : Nat := x / 256 ^ i % 256

/-- The eight bytes of a 64-bit value in little-endian order: the host-memory
image of the `uint64_t` field `s->data` after `cpu_to_le64`. -/
def toBytesLE (x : Nat) : List Nat := (List.range 8).map (byteAt (x % 2 ^ 64))

/-- Host-memory image of `s->data` after the endianness conversion in
`generic_loader_realize`: `cpu_to_be64` leaves big-endian bytes in memory,
`cpu_to_le64` little-endian bytes, independently of the host byte order. -/
def convertData (x : Nat) (be : Bool) : List Nat :=
  if be then (toBytesLE x).reverse else toBytesLE x

/-- Decimal digit test, as used by the `%d` conversion of `sscanf`. -/
def isDigitC (c : Char) : Bool := decide ('0' ≤ c) && decide (c ≤ '9')

/-- C `isspace` for the default locale. -/
def isSpaceC (c : Char) : Bool :=
  c == ' ' || c == '\t' || c == '\n' || c == '\x0b' || c == '\x0c' || c == '\r'

/-- Skip leading whitespace, as `%d` does before scanning digits. -/
def skipWs : List Char → List Char
  | [] => []
  | c :: cs => if isSpaceC c then skipWs cs else c :: cs

/-- Accumulate a run of decimal digits into a number. -/
def digitsToNat : List Char → Nat → Nat
  | [], acc => acc
  | c :: cs, acc => digitsToNat cs (acc * 10 + (c.toNat - 48))

/-- Scan a nonempty run of decimal digits; fails when there is none.
Characters after the digits are left unconsumed (and ignored by `sscanf`,
which only counts completed conversions). -/
def scanUnsigned (s : List Char) : Option Nat :=
  if (s.takeWhile isDigitC).isEmpty then none
  else some (digitsToNat (s.takeWhile isDigitC) 0)

/-- The `%d` conversion of `sscanf`: skip whitespace, accept an optional
sign, then require at least one digit; trailing input is ignored. -/
def scanInt (s : List Char) : Option Int :=
  match skipWs s with
  | '-' :: rest => (scanUnsigned rest).map (fun n => -(n : Int))
  | '+' :: rest => (scanUnsigned rest).map (fun n => (n : Int))
  | other => (scanUnsigned other).map (fun n => (n : Int))

/-- Model of `sscanf(s->reg, "r%d", &reg_num) == 1`: the literal `r` must match the
first input character exactly, then `%d` scans an integer; the result is
the scanned integer when exactly one conversion succeeded. -/
def sscanf_r_d : List Char → Option Int
  | [] => none
  | c :: rest => if c == 'r' then scanInt rest else none

/-- Transaction attributes carried by the device (`s->attrs`). -/
structure MemTxAttrs where
  secure : Bool
  debug : Bool
  requester_id : Nat
  deriving DecidableEq

/-- Observable machine state: a byte view of the resolved address space, the
per-CPU register files written through `gdb_write_register` (eight raw bytes
per register), and the per-CPU program counter. -/
@[ext] structure Machine where
  mem : Nat → Nat
  regs : Nat → Nat → List Nat
  pc : Nat → Nat

/-- Model of `address_space_rw(..., true)`: write `bs` at consecutive addresses from
`a`. -/
def writeMem (a : Nat) (bs : List Nat) (m : Machine) : Machine :=
  { m with mem := fun x => if a ≤ x ∧ x < a + bs.length then bs.getD (x - a) 0 else m.mem x }

/-- Model of `cc->gdb_write_register(cpu, buf, i)`: store the eight-byte buffer into
register `i` of CPU `c`. -/
def writeReg (c i : Nat) (v : List Nat) (m : Machine) : Machine :=
  { m with regs := fun cpu r => if cpu = c ∧ r = i then v else m.regs cpu r }

/-- Model of `cc->set_pc(cpu, addr)`. -/
def setPCOf (c a : Nat) (m : Machine) : Machine :=
  { m with pc := fun cpu => if cpu = c then a else m.pc cpu }

/-- External collaborators fixed for one realize/reset run: the CPU list
(CPUs are indexed `0 .. num_cpus - 1`), the four image-loader oracles, the
machine total RAM size, the machine-ready phase predicate, the memory effect
of the loader attempts, and the architectural CPU reset values. -/
structure GLEnv where
  num_cpus : Nat
  elf_size : Int
  elf_entry : Nat
  uimage_size : Int
  uimage_entry : Nat
  hex_size : Int
  hex_entry : Nat
  raw_size : Nat → Nat → Int
  ram_size : Nat
  machine_ready : Bool
  loader_effect : Machine → Machine
  reset_regs : Nat → List Nat
  reset_pc : Nat

/-- Model of `qemu_get_cpu(n)`: the CPU with index `n`, or null. -/
def qemu_get_cpu (env : GLEnv) (n : Nat) : Option Nat :=
  if n < env.num_cpus then some n else none

/-- Model of `first_cpu`: the first CPU in system enumeration order, null when the
machine has no CPUs. -/
def first_cpu (env : GLEnv) : Option Nat :=
  if 0 < env.num_cpus then some 0 else none

/-- Model of `cpu_reset(cpu)`: full reset of CPU `c`, setting its registers and PC to
the architectural reset values. -/
def cpuResetFn (env : GLEnv) (c : Nat) (m : Machine) : Machine :=
  { m with
    regs := fun cpu r => if cpu = c then env.reset_regs r else m.regs cpu r,
    pc := fun cpu => if cpu = c then env.reset_pc else m.pc cpu }

/-- The fields of `GenericLoaderState` read by `generic_loader_reset`, as
left in place by a successful `generic_loader_realize`.  `cpu = none` models
a null `s->cpu` pointer; the register-default arrays are indexed `0..30`. -/
structure ResolvedState where
  set_pc : Bool
  cpu : Option Nat
  addr : Nat
  dataBytes : List Nat
  data_len : Nat
  has_register_defaults : Nat → Bool
  register_defaults : Nat → List Nat
  attrs : MemTxAttrs

/-- Whether any slot of `s->has_register_defaults[31]` is set. -/
def anyDefault (s : ResolvedState) : Bool :=
  (List.range 31).any (fun i => s.has_register_defaults i)

/-- The register-default loop of `generic_loader_reset`, restricted to slots
`0 .. n - 1`. -/
def applyUpTo (s : ResolvedState) (c n : Nat) (m : Machine) : Machine :=
  (List.range n).foldl
    (fun acc i =>
      if s.has_register_defaults i then writeReg c i (s.register_defaults i) acc else acc) m

/-- The register-default loop of `generic_loader_reset` over slots `0..30`:
for every populated slot, write the stored eight-byte value into that
register of the resolved CPU. -/
def applyRegDefaults (s : ResolvedState) (c : Nat) (m : Machine) : Machine :=
  applyUpTo s c 31 m

/-- First block of `generic_loader_reset`: when `s->set_pc`, fully reset the
CPU and override its program counter with `s->addr`.  A null `s->cpu` here
is a crash (`cpu_reset(NULL)`). -/
def resetStep1 (env : GLEnv) (s : ResolvedState) (m : Machine) : Option Machine :=
  if s.set_pc then (s.cpu).map (fun c => setPCOf c s.addr (cpuResetFn env c m))
  else some m

/-- Second block: the register-default loop.  The loop body dereferences
`s->cpu` (`CPU_GET_CLASS`), so a populated slot with a null CPU crashes. -/
def resetStep2 (s : ResolvedState) (m : Machine) : Option Machine :=
  if anyDefault s then (s.cpu).map (fun c => applyRegDefaults s c m)
  else some m

/-- Third block: when `s->data_len` is nonzero, `assert(s->data_len <
sizeof(s->data))` — that is, `data_len < 8` — and then write the first
`data_len` bytes of the converted data to `s->addr` through
`s->cpu->as` (null CPU crashes). -/
def resetStep3 (s : ResolvedState) (m : Machine) : Option Machine :=
  if s.data_len ≠ 0 then
    if s.data_len < 8 then
      (s.cpu).map (fun _ => writeMem s.addr (s.dataBytes.take s.data_len) m)
    else none
  else some m

/-- Model of `generic_loader_reset`: PC override, register defaults, literal write,
in this order.  `none` is an assertion failure or null dereference. -/
def generic_loader_reset (env : GLEnv) (s : ResolvedState) (m : Machine) :
    Option Machine :=
  (resetStep1 env s m).bind (fun m1 => (resetStep2 s m1).bind (resetStep3 s))

/-- The sentinel for an unspecified CPU index (`#define CPU_NONE 0xFFFFFFFF`). -/
def CPU_NONE : Nat := 0xFFFFFFFF

/-- The configurable properties of the device, as declared in
`generic_loader_props` with their defaults: `addr`, `data`, `data-len`,
`data-be`, `cpu-num`, `force-raw`, `reg`, `file`, and the transaction
attributes.  Strings are `Option (List Char)` (null vs a C string). -/
structure GLConfig where
  addr : Nat
  data : Nat
  data_len : Nat
  data_be : Bool
  cpu_num : Nat
  force_raw : Bool
  reg : Option (List Char)
  file : Option (List Char)
  attrs_secure : Bool
  attrs_debug : Bool
  attrs_requester_id : Nat

/-- The distinct `error_setg` sites of `generic_loader_realize`, in source
order. -/
inductive GLError where
  | fileWithData
  | forceRawWithData
  | missingDataLen
  | dataLenTooBig
  | dataWithImage
  | dataWithPC
  | missingCpuNum
  | noArguments
  | nonexistentCpu (n : Nat)
  | cannotLoadImage (f : List Char)
  | unsupportedRegister (r : List Char)
  deriving DecidableEq

/-- Outcome of `generic_loader_realize`: success with the device state left
for the reset callback, a reported error, or a crash (the immediate
hot-plug reset hitting an assertion failure or null dereference). -/
inductive RealizeRes where
  | ok (s : ResolvedState)
  | err (e : GLError)
  | crashed

/-- Returns `true` exactly on a successful outcome. -/
def RealizeRes.isOk : RealizeRes → Bool
  | .ok _ => true
  | _ => false

/-- The resolved state of a successful outcome. -/
def RealizeRes.getOk : RealizeRes → Option ResolvedState
  | .ok s => some s
  | _ => none

/-- Full observable outcome of `generic_loader_realize`: the result, whether
the reset callback is registered with the reset registry when realize
returns, and the machine state after realize's own side effects (loader
writes and the immediate hot-plug reset). -/
structure RealizeOut where
  res : RealizeRes
  registered : Bool
  machine : Machine

/-- The image-loading attempt sequence of `generic_loader_realize` (lines
`if (s->file) { ... }`): `load_elf_as`, then `load_uimage_as`, then
`load_targphys_hex_as` unless `force_raw`; then, when every structured
attempt failed or `force_raw` is set, `load_image_targphys_as` at the
configured address capped at `current_machine->ram_size`.  Returns the
final `size` and the effective address (`entry` when a structured loader
succeeded, the configured address otherwise). -/
def image_load_seq (env : GLEnv) (force_raw : Bool) (addr : Nat) : Int × Nat :=
  let se : Int × Nat :=
    if ¬ force_raw then
      if env.elf_size < 0 then
        if env.uimage_size < 0 then (env.hex_size, env.hex_entry)
        else (env.uimage_size, env.uimage_entry)
      else (env.elf_size, env.elf_entry)
    else ((0 : Int), 0)
  if se.1 < 0 ∨ force_raw = true then (env.raw_size addr env.ram_size, addr) else se

/-- The device state as it stands right after the endianness conversion in
`generic_loader_realize`: mode bits resolved, CPU resolved, effective
address fixed, data converted, and no register default stored yet (the
instance starts zero-initialised). -/
def mkResolved (cfg : GLConfig) (set_pc : Bool) (cpu : Option Nat) (addr : Nat) :
    ResolvedState :=
  { set_pc := set_pc, cpu := cpu, addr := addr,
    dataBytes := convertData cfg.data cfg.data_be,
    data_len := cfg.data_len,
    has_register_defaults := fun _ => false,
    register_defaults := fun _ => List.replicate 8 0,
    attrs := ⟨cfg.attrs_secure, cfg.attrs_debug, cfg.attrs_requester_id⟩ }

/-- Final block of `generic_loader_realize`: when `s->reg` is set, parse it
with `sscanf(s->reg, "r%d", &reg_num)`; on a scan count of 1 with
`0 <= reg_num < 31`, store the converted data as the default for that
register slot, otherwise fail with the unsupported-register error. -/
def regStep (cfg : GLConfig) (s0 : ResolvedState) (m : Machine) : RealizeOut :=
  match cfg.reg with
  | none => ⟨.ok s0, true, m⟩
  | some r =>
    match sscanf_r_d r with
    | some n =>
      if 0 ≤ n ∧ n < 31 then
        ⟨.ok { s0 with
                has_register_defaults := fun i =>
                  if i = n.toNat then true else s0.has_register_defaults i,
                register_defaults := fun i =>
                  if i = n.toNat then s0.dataBytes else s0.register_defaults i },
          true, m⟩
      else ⟨.err (.unsupportedRegister r), true, m⟩
    | none => ⟨.err (.unsupportedRegister r), true, m⟩

/-- Tail of `generic_loader_realize` after the image-loading block: convert
the data endianness (already folded into `mkResolved`), fire the reset
action immediately when the machine has passed `PHASE_MACHINE_READY`
(hot-plug), then handle the register default. -/
def afterLoad (env : GLEnv) (cfg : GLConfig) (set_pc : Bool) (cpu : Option Nat)
    (addr : Nat) (m : Machine) : RealizeOut :=
  let s0 := mkResolved cfg set_pc cpu addr
  if env.machine_ready then
    match generic_loader_reset env s0 m with
    | none => ⟨.crashed, true, m⟩
    | some m1 => regStep cfg s0 m1
  else regStep cfg s0 m

/-- Tail of `generic_loader_realize` from `qemu_register_reset_loader` on: the reset
callback is registered before anything below runs, then the CPU is resolved
(a concrete `cpu-num` must name an existing CPU, the sentinel falls back to
`first_cpu`), then the image-loading block runs when a file is configured. -/
def afterValidation (env : GLEnv) (cfg : GLConfig) (set_pc : Bool) (m0 : Machine) :
    RealizeOut :=
  match (if cfg.cpu_num ≠ CPU_NONE then
          match qemu_get_cpu env cfg.cpu_num with
          | some c => Except.ok (some c)
          | none => Except.error cfg.cpu_num
         else Except.ok (first_cpu env)) with
  | Except.error n => ⟨.err (.nonexistentCpu n), true, m0⟩
  | Except.ok cpu =>
    match cfg.file with
    | none => afterLoad env cfg set_pc cpu cfg.addr m0
    | some f =>
      let m1 := env.loader_effect m0
      let p := image_load_seq env cfg.force_raw cfg.addr
      if p.1 < 0 then ⟨.err (.cannotLoadImage f), true, m1⟩
      else afterLoad env cfg set_pc cpu p.2 m1

/-- Model of `generic_loader_realize`: the validation ladder (data mode, image mode,
PC mode, nothing specified, in this order), then registration and the rest
of realize. -/
def generic_loader_realize (env : GLEnv) (cfg : GLConfig) (m0 : Machine) :
    RealizeOut :=
  if cfg.data ≠ 0 ∨ cfg.data_len ≠ 0 ∨ cfg.data_be = true then
    if cfg.file.isSome then ⟨.err .fileWithData, false, m0⟩
    else if cfg.force_raw = true then ⟨.err .forceRawWithData, false, m0⟩
    else if cfg.data_len = 0 then ⟨.err .missingDataLen, false, m0⟩
    else if 8 < cfg.data_len then ⟨.err .dataLenTooBig, false, m0⟩
    else afterValidation env cfg false m0
  else if cfg.file.isSome ∨ cfg.force_raw = true then
    if cfg.data ≠ 0 ∨ cfg.data_len ≠ 0 ∨ cfg.data_be = true then
      ⟨.err .dataWithImage, false, m0⟩
    else afterValidation env cfg (decide (cfg.cpu_num ≠ CPU_NONE)) m0
  else if cfg.addr ≠ 0 then
    if cfg.data ≠ 0 ∨ cfg.data_len ≠ 0 ∨ cfg.data_be = true then
      ⟨.err .dataWithPC, false, m0⟩
    else if cfg.cpu_num = CPU_NONE then ⟨.err .missingCpuNum, false, m0⟩
    else afterValidation env cfg true m0
  else ⟨.err .noArguments, false, m0⟩

/-! ### Characterisation of the register-default loop -/

theorem applyUpTo_succ (s : ResolvedState) (c n : Nat) (m : Machine) :
    applyUpTo s c (n + 1) m =
      (if s.has_register_defaults n then
        writeReg c n (s.register_defaults n) (applyUpTo s c n m)
       else applyUpTo s c n m) := by
  unfold applyUpTo
  rw [List.range_succ, List.foldl_append]
  simp only [List.foldl_cons, List.foldl_nil]

theorem applyUpTo_mem (s : ResolvedState) (c : Nat) :
    ∀ (n : Nat) (m : Machine), (applyUpTo s c n m).mem = m.mem := by
  intro n
  induction n with
  | zero => intro m; rfl
  | succ k ih =>
    intro m
    rw [applyUpTo_succ]
    split
    · simp only [writeReg, ih]
    · exact ih m

theorem applyUpTo_pc (s : ResolvedState) (c : Nat) :
    ∀ (n : Nat) (m : Machine), (applyUpTo s c n m).pc = m.pc := by
  intro n
  induction n with
  | zero => intro m; rfl
  | succ k ih =>
    intro m
    rw [applyUpTo_succ]
    split
    · simp only [writeReg, ih]
    · exact ih m

theorem applyUpTo_regs (s : ResolvedState) (c : Nat) :
    ∀ (n : Nat) (m : Machine) (cpu r : Nat),
      (applyUpTo s c n m).regs cpu r =
        if cpu = c ∧ r < n ∧ s.has_register_defaults r = true then s.register_defaults r
        else m.regs cpu r := by
  intro n
  induction n with
  | zero =>
    intro m cpu r
    simp [applyUpTo]
  | succ k ih =>
    intro m cpu r
    rw [applyUpTo_succ]
    by_cases hd : s.has_register_defaults k = true
    · simp only [hd, if_true, writeReg]
      rw [ih]
      by_cases hc : cpu = c
      · by_cases hrk : r = k
        · simp [hc, hrk, hd]
        · by_cases hlt : r < k
          · simp only [hc, hrk, hlt, true_and, and_true, false_and, if_false]
            have hlt1 : r < k + 1 := Nat.lt_succ_of_lt hlt
            simp [hlt, hlt1]
          · have h1 : ¬ r < k + 1 := by omega
            simp [hc, hrk, hlt, h1]
      · simp [hc]
    · have hd2 : s.has_register_defaults k = false := by simpa using hd
      rw [hd2]
      simp only [Bool.false_eq_true, if_false]
      rw [ih]
      by_cases hc : cpu = c
      · by_cases hrk : r = k
        · have hnot : ¬ (s.has_register_defaults r = true) := by rw [hrk]; exact hd
          have h1 : ¬ r < k := by omega
          simp [hrk, hd, h1]
        · have : (r < k + 1) ↔ (r < k) := by omega
          simp [this]
      · simp [hc]

theorem anyDefault_false_iff (s : ResolvedState) :
    anyDefault s = false ↔ ∀ r, r < 31 → s.has_register_defaults r = false := by
  unfold anyDefault
  rw [← Bool.not_eq_true, List.any_eq_true]
  constructor
  · intro h r hr
    by_contra hc
    exact h ⟨r, List.mem_range.mpr hr, by simpa using hc⟩
  · rintro h ⟨r, hmem, hr⟩
    exact absurd hr (by simp [h r (List.mem_range.mp hmem)])

/-! ### A denotational model of `generic_loader_reset` -/

/-- Pointwise effect of the PC block of `generic_loader_reset`. -/
def model1 (env : GLEnv) (s : ResolvedState) (m : Machine) : Machine :=
  { mem := m.mem,
    regs := fun cpu r =>
      if s.set_pc = true ∧ s.cpu = some cpu then env.reset_regs r else m.regs cpu r,
    pc := fun cpu =>
      if s.set_pc = true ∧ s.cpu = some cpu then s.addr else m.pc cpu }

/-- Pointwise effect of the register-default loop. -/
def model2 (s : ResolvedState) (m : Machine) : Machine :=
  { mem := m.mem,
    regs := fun cpu r =>
      if s.cpu = some cpu ∧ r < 31 ∧ s.has_register_defaults r = true
      then s.register_defaults r else m.regs cpu r,
    pc := m.pc }

/-- Pointwise effect of the bounded literal write. -/
def model3 (s : ResolvedState) (m : Machine) : Machine :=
  { mem := fun a =>
      if s.data_len ≠ 0 ∧ s.addr ≤ a ∧ a < s.addr + (s.dataBytes.take s.data_len).length
      then (s.dataBytes.take s.data_len).getD (a - s.addr) 0 else m.mem a,
    regs := m.regs,
    pc := m.pc }

/-- The composite effect of one successful reset invocation. -/
def resetModel (env : GLEnv) (s : ResolvedState) (m : Machine) : Machine :=
  model3 s (model2 s (model1 env s m))

/-- The conditions under which `generic_loader_reset` runs to completion
(no assertion failure, no null CPU dereference). -/
def resetOK (s : ResolvedState) : Prop :=
  (s.set_pc = true → s.cpu.isSome = true) ∧
  (anyDefault s = true → s.cpu.isSome = true) ∧
  (s.data_len ≠ 0 → s.data_len < 8 ∧ s.cpu.isSome = true)

theorem resetStep1_eq (env : GLEnv) (s : ResolvedState) (m : Machine)
    (h : s.set_pc = true → s.cpu.isSome = true) :
    resetStep1 env s m = some (model1 env s m) := by
  unfold resetStep1
  by_cases hp : s.set_pc = true
  · cases hcpu : s.cpu with
    | none => rw [hcpu] at h; exact absurd (h hp) (by simp)
    | some c =>
      simp only [hp, if_true, hcpu, Option.map_some]
      refine congrArg some ?_
      ext cpu r
      · simp [setPCOf, cpuResetFn, model1]
      · simp only [setPCOf, cpuResetFn, model1, hp, hcpu, true_and]
        by_cases hc : cpu = c
        · simp [hc]
        · have hcc : ¬ c = cpu := fun h2 => hc (Eq.symm h2)
          simp [hc, hcc]
      · simp only [setPCOf, cpuResetFn, model1, hp, hcpu, true_and]
        by_cases hc : cpu = c
        · simp [hc]
        · have hcc : ¬ c = cpu := fun h2 => hc (Eq.symm h2)
          simp [hc, hcc]
  · have hp2 : s.set_pc = false := by simpa using hp
    simp only [hp2, Bool.false_eq_true, if_false]
    refine congrArg some ?_
    ext cpu r
    · simp [model1]
    · simp [model1, hp2]
    · simp [model1, hp2]

theorem resetStep2_eq (s : ResolvedState) (m : Machine)
    (h : anyDefault s = true → s.cpu.isSome = true) :
    resetStep2 s m = some (model2 s m) := by
  unfold resetStep2
  by_cases hd : anyDefault s = true
  · cases hcpu : s.cpu with
    | none => rw [hcpu] at h; exact absurd (h hd) (by simp)
    | some c =>
      simp only [hd, if_true, hcpu, Option.map_some]
      refine congrArg some ?_
      ext cpu r
      · simp [applyRegDefaults, applyUpTo_mem, model2]
      · rw [show (applyRegDefaults s c m).regs cpu r = _ from applyUpTo_regs s c 31 m cpu r]
        simp only [model2, hcpu]
        by_cases hc : cpu = c
        · simp [hc]
        · have hcc : ¬ c = cpu := fun h2 => hc (Eq.symm h2)
          simp [hc, hcc]
      · simp [applyRegDefaults, applyUpTo_pc, model2]
  · have hd2 : anyDefault s = false := by simpa using hd
    have hnone := (anyDefault_false_iff s).mp hd2
    simp only [hd2, Bool.false_eq_true, if_false]
    refine congrArg some ?_
    ext cpu r
    · simp [model2]
    · simp only [model2]
      by_cases hr : r < 31
      · simp [hnone r hr]
      · simp [hr]
    · simp [model2]

theorem resetStep3_eq (s : ResolvedState) (m : Machine)
    (h : s.data_len ≠ 0 → s.data_len < 8 ∧ s.cpu.isSome = true) :
    resetStep3 s m = some (model3 s m) := by
  unfold resetStep3
  by_cases hl : s.data_len = 0
  · simp only [hl, ne_eq, not_true_eq_false, if_false]
    refine congrArg some ?_
    ext a
    · simp [model3, hl]
    · simp [model3]
    · simp [model3]
  · obtain ⟨h8, hcpu⟩ := h hl
    obtain ⟨c, hc⟩ := Option.isSome_iff_exists.mp hcpu
    simp only [hl, ne_eq, not_false_eq_true, if_true, h8, hc, Option.map_some]
    refine congrArg some ?_
    ext a
    · simp [writeMem, model3, hl]
    · simp [writeMem, model3]
    · simp [writeMem, model3]

/-- A successful `generic_loader_reset` computes exactly `resetModel`. -/
theorem reset_eq_model (env : GLEnv) (s : ResolvedState) (m : Machine) (h : resetOK s) :
    generic_loader_reset env s m = some (resetModel env s m) := by
  obtain ⟨h1, h2, h3⟩ := h
  unfold generic_loader_reset resetModel
  rw [resetStep1_eq env s m h1, Option.some_bind, resetStep2_eq _ _ h2, Option.some_bind,
    resetStep3_eq _ _ h3]

/-- Conversely, a successful `generic_loader_reset` implies the no-crash
conditions. -/
theorem reset_some_resetOK (env : GLEnv) (s : ResolvedState) (m m' : Machine)
    (h : generic_loader_reset env s m = some m') : resetOK s := by
  unfold generic_loader_reset at h
  cases h1 : resetStep1 env s m with
  | none => rw [h1] at h; simp at h
  | some m1 =>
    rw [h1] at h
    rw [Option.some_bind] at h
    cases h2 : resetStep2 s m1 with
    | none => rw [h2] at h; simp at h
    | some m2 =>
      rw [h2] at h
      rw [Option.some_bind] at h
      refine ⟨?_, ?_, ?_⟩
      · intro hp
        by_contra hn
        have hnone : s.cpu = none := Option.not_isSome_iff_eq_none.mp (by simpa using hn)
        rw [resetStep1, if_pos hp, hnone] at h1
        simp at h1
      · intro hd
        by_contra hn
        have hnone : s.cpu = none := Option.not_isSome_iff_eq_none.mp (by simpa using hn)
        rw [resetStep2, if_pos hd, hnone] at h2
        simp at h2
      · intro hl
        rw [resetStep3, if_pos hl] at h
        by_cases h8 : s.data_len < 8
        · refine ⟨h8, ?_⟩
          by_contra hn
          have hnone : s.cpu = none := Option.not_isSome_iff_eq_none.mp (by simpa using hn)
          rw [if_pos h8, hnone] at h
          simp at h
        · rw [if_neg h8] at h
          simp at h

/-- Replaying `resetModel` on its own output changes nothing: every branch
writes a value fixed by `s` and `env` alone. -/
theorem resetModel_idem (env : GLEnv) (s : ResolvedState) (m : Machine) :
    resetModel env s (resetModel env s m) = resetModel env s m := by
  ext cpu r
  · dsimp only [resetModel, model1, model2, model3]
    split_ifs <;> rfl
  · dsimp only [resetModel, model1, model2, model3]
    split_ifs <;> rfl
  · dsimp only [resetModel, model1, model2, model3]
    split_ifs <;> rfl

/-! ### Structural lemmas about `generic_loader_realize` -/

/-- Errors reported only after `qemu_register_reset_loader` has run. -/
def isLateErr : GLError → Bool
  | .nonexistentCpu _ => true
  | .cannotLoadImage _ => true
  | .unsupportedRegister _ => true
  | _ => false

theorem regStep_registered (cfg : GLConfig) (s0 : ResolvedState) (m : Machine) :
    (regStep cfg s0 m).registered = true := by
  unfold regStep
  rcases hreg : cfg.reg with _ | r
  · rfl
  · dsimp only
    rcases hscan : sscanf_r_d r with _ | n
    · rfl
    · by_cases h : 0 ≤ n ∧ n < 31 <;> simp [h]

theorem afterLoad_registered (env : GLEnv) (cfg : GLConfig) (b : Bool)
    (cpu : Option Nat) (addr : Nat) (m : Machine) :
    (afterLoad env cfg b cpu addr m).registered = true := by
  unfold afterLoad
  dsimp only
  split
  · split
    · rfl
    · exact regStep_registered ..
  · exact regStep_registered ..

theorem afterValidation_registered (env : GLEnv) (cfg : GLConfig) (b : Bool)
    (m0 : Machine) : (afterValidation env cfg b m0).registered = true := by
  unfold afterValidation
  split
  · rfl
  · split
    · exact afterLoad_registered ..
    · dsimp only
      split
      · rfl
      · exact afterLoad_registered ..

theorem regStep_err_isLate (cfg : GLConfig) (s0 : ResolvedState) (m : Machine)
    (e : GLError) (h : (regStep cfg s0 m).res = .err e) : isLateErr e = true := by
  unfold regStep at h
  rcases hreg : cfg.reg with _ | r <;> rw [hreg] at h
  · simp at h
  · dsimp only at h
    rcases hscan : sscanf_r_d r with _ | n <;> rw [hscan] at h
    · simp only [RealizeRes.err.injEq] at h
      rw [← h]
      rfl
    · by_cases hn : 0 ≤ n ∧ n < 31
      · simp [hn] at h
      · simp only [hn, if_false] at h
        simp only [RealizeRes.err.injEq] at h
        rw [← h]
        rfl

theorem afterLoad_err_isLate (env : GLEnv) (cfg : GLConfig) (b : Bool)
    (cpu : Option Nat) (addr : Nat) (m : Machine) (e : GLError)
    (h : (afterLoad env cfg b cpu addr m).res = .err e) : isLateErr e = true := by
  unfold afterLoad at h
  dsimp only at h
  split at h
  · split at h
    · simp at h
    · exact regStep_err_isLate _ _ _ _ h
  · exact regStep_err_isLate _ _ _ _ h

theorem afterValidation_err_isLate (env : GLEnv) (cfg : GLConfig) (b : Bool)
    (m0 : Machine) (e : GLError)
    (h : (afterValidation env cfg b m0).res = .err e) : isLateErr e = true := by
  unfold afterValidation at h
  split at h
  · simp only [RealizeRes.err.injEq] at h
    rw [← h]
    rfl
  · split at h
    · exact afterLoad_err_isLate _ _ _ _ _ _ _ h
    · dsimp only at h
      split at h
      · simp only [RealizeRes.err.injEq] at h
        rw [← h]
        rfl
      · exact afterLoad_err_isLate _ _ _ _ _ _ _ h


theorem regStep_ok_shape (cfg : GLConfig) (s0 : ResolvedState) (m : Machine)
    (s : ResolvedState) (h : (regStep cfg s0 m).res = .ok s) :
    (cfg.reg = none ∧ s = s0) ∨
    (∃ r n, cfg.reg = some r ∧ sscanf_r_d r = some n ∧ 0 ≤ n ∧ n < 31 ∧
      s = { s0 with
              has_register_defaults := fun i =>
                if i = n.toNat then true else s0.has_register_defaults i,
              register_defaults := fun i =>
                if i = n.toNat then s0.dataBytes else s0.register_defaults i }) := by
  unfold regStep at h
  rcases hreg : cfg.reg with _ | r <;> rw [hreg] at h
  · left
    simp only [RealizeRes.ok.injEq] at h
    exact ⟨rfl, h.symm⟩
  · dsimp only at h
    rcases hscan : sscanf_r_d r with _ | n <;> rw [hscan] at h <;> dsimp only at h
    · simp at h
    · by_cases hn : 0 ≤ n ∧ n < 31
      · right
        rw [if_pos hn] at h
        simp only [RealizeRes.ok.injEq] at h
        exact ⟨r, n, rfl, hscan, hn.1, hn.2, h.symm⟩
      · rw [if_neg hn] at h
        simp at h

theorem afterLoad_ok_shape (env : GLEnv) (cfg : GLConfig) (b : Bool)
    (cpu : Option Nat) (addr : Nat) (m : Machine) (s : ResolvedState)
    (h : (afterLoad env cfg b cpu addr m).res = .ok s) :
    ∃ m2, (regStep cfg (mkResolved cfg b cpu addr) m2).res = .ok s := by
  unfold afterLoad at h
  dsimp only at h
  split at h
  · split at h
    · simp at h
    · exact ⟨_, h⟩
  · exact ⟨_, h⟩

theorem afterValidation_ok_shape (env : GLEnv) (cfg : GLConfig) (b : Bool)
    (m0 : Machine) (s : ResolvedState)
    (h : (afterValidation env cfg b m0).res = .ok s) :
    ∃ (cpu : Option Nat) (addr : Nat) (m2 : Machine),
      ((cfg.cpu_num ≠ CPU_NONE ∧ ∃ c, qemu_get_cpu env cfg.cpu_num = some c ∧ cpu = some c) ∨
        (cfg.cpu_num = CPU_NONE ∧ cpu = first_cpu env)) ∧
      (regStep cfg (mkResolved cfg b cpu addr) m2).res = .ok s := by
  unfold afterValidation at h
  split at h
  · simp at h
  · rename_i cpu heq
    have hcpu :
        (cfg.cpu_num ≠ CPU_NONE ∧ ∃ c, qemu_get_cpu env cfg.cpu_num = some c ∧ cpu = some c) ∨
        (cfg.cpu_num = CPU_NONE ∧ cpu = first_cpu env) := by
      by_cases hne : cfg.cpu_num ≠ CPU_NONE
      · rw [if_pos hne] at heq
        left
        refine ⟨hne, ?_⟩
        rcases hq : qemu_get_cpu env cfg.cpu_num with _ | c <;> rw [hq] at heq
        · simp at heq
        · simp only [Except.ok.injEq] at heq
          exact ⟨c, rfl, heq.symm⟩
      · rw [if_neg hne] at heq
        right
        simp only [Except.ok.injEq] at heq
        exact ⟨by simpa using hne, heq.symm⟩
    split at h
    · obtain ⟨m2, hm2⟩ := afterLoad_ok_shape _ _ _ _ _ _ _ h
      exact ⟨cpu, cfg.addr, m2, hcpu, hm2⟩
    · dsimp only at h
      split at h
      · simp at h
      · obtain ⟨m2, hm2⟩ := afterLoad_ok_shape _ _ _ _ _ _ _ h
        exact ⟨cpu, _, m2, hcpu, hm2⟩

theorem realize_ok_shape (env : GLEnv) (cfg : GLConfig) (m : Machine)
    (s : ResolvedState) (h : (generic_loader_realize env cfg m).res = .ok s) :
    ∃ (b : Bool) (cpu : Option Nat) (addr : Nat) (m2 : Machine),
      ((cfg.cpu_num ≠ CPU_NONE ∧ ∃ c, qemu_get_cpu env cfg.cpu_num = some c ∧ cpu = some c) ∨
        (cfg.cpu_num = CPU_NONE ∧ cpu = first_cpu env)) ∧
      (regStep cfg (mkResolved cfg b cpu addr) m2).res = .ok s := by
  unfold generic_loader_realize at h
  split_ifs at h <;>
    (obtain ⟨cpu, addr, m2, hcpu, hstep⟩ := afterValidation_ok_shape _ _ _ _ _ h;
     exact ⟨_, cpu, addr, m2, hcpu, hstep⟩)

theorem regStep_ok_cpu (cfg : GLConfig) (s0 : ResolvedState) (m : Machine)
    (s : ResolvedState) (h : (regStep cfg s0 m).res = .ok s) : s.cpu = s0.cpu := by
  rcases regStep_ok_shape cfg s0 m s h with ⟨_, rfl⟩ | ⟨r, n, _, _, _, _, rfl⟩ <;> rfl


theorem anyDefault_mkResolved (cfg : GLConfig) (b : Bool) (cpu : Option Nat) (addr : Nat) :
    anyDefault (mkResolved cfg b cpu addr) = false := by
  rw [anyDefault_false_iff]
  intro r _
  rfl

/-- A reset with nothing to do (no PC override, no register default, no
data) leaves the machine unchanged, whatever the environment. -/
theorem reset_trivial (env2 : GLEnv) (s : ResolvedState) (hsp : s.set_pc = false)
    (hl : s.data_len = 0) (hh : ∀ i, s.has_register_defaults i = false) (m2 : Machine) :
    generic_loader_reset env2 s m2 = some m2 := by
  have ha : anyDefault s = false := (anyDefault_false_iff s).mpr (fun r _ => hh r)
  unfold generic_loader_reset resetStep1 resetStep2 resetStep3
  simp [hsp, ha, hl]

/-- Trace of realize for a pure image-load configuration (file set, no data
fields, no register name, resolvable CPU): the image-load error propagates
exactly when the final attempt's size is negative, and on success the
resolved state is `mkResolved` at the sequencer's effective address. -/
theorem realize_image_mode (env : GLEnv) (cfg : GLConfig) (m : Machine) (f : List Char)
    (hf : cfg.file = some f) (hd : cfg.data = 0) (hl : cfg.data_len = 0)
    (hb : cfg.data_be = false) (hr : cfg.reg = none)
    (hcpu : cfg.cpu_num = CPU_NONE ∨ cfg.cpu_num < env.num_cpus) :
    ((image_load_seq env cfg.force_raw cfg.addr).1 < 0 →
        (generic_loader_realize env cfg m).res = .err (.cannotLoadImage f)) ∧
    (0 ≤ (image_load_seq env cfg.force_raw cfg.addr).1 →
        (generic_loader_realize env cfg m).res =
          .ok (mkResolved cfg (decide (cfg.cpu_num ≠ CPU_NONE))
                (if cfg.cpu_num ≠ CPU_NONE then some cfg.cpu_num else first_cpu env)
                (image_load_seq env cfg.force_raw cfg.addr).2)) := by
  have hcond : ¬ (cfg.data ≠ 0 ∨ cfg.data_len ≠ 0 ∨ cfg.data_be = true) := by
    simp [hd, hl, hb]
  have hfile : cfg.file.isSome = true := by rw [hf]; rfl
  unfold generic_loader_realize
  rw [if_neg hcond, if_pos (Or.inl hfile), if_neg hcond]
  unfold afterValidation
  have hresolve : (if cfg.cpu_num ≠ CPU_NONE then
        match qemu_get_cpu env cfg.cpu_num with
        | some c => Except.ok (some c)
        | none => Except.error cfg.cpu_num
      else Except.ok (first_cpu env)) =
      Except.ok (if cfg.cpu_num ≠ CPU_NONE then some cfg.cpu_num else first_cpu env) := by
    by_cases hne : cfg.cpu_num ≠ CPU_NONE
    · have hlt : cfg.cpu_num < env.num_cpus := hcpu.resolve_left (by simpa using hne)
      have hq : qemu_get_cpu env cfg.cpu_num = some cfg.cpu_num := by
        unfold qemu_get_cpu
        rw [if_pos hlt]
      rw [if_pos hne, if_pos hne, hq]
    · rw [if_neg hne, if_neg hne]
  rw [hresolve]
  dsimp only
  rw [hf]
  dsimp only
  constructor
  · intro hneg
    rw [if_pos hneg]
  · intro hpos
    rw [if_neg (by omega)]
    unfold afterLoad
    dsimp only
    have hok : resetOK (mkResolved cfg (decide (cfg.cpu_num ≠ CPU_NONE))
        (if cfg.cpu_num ≠ CPU_NONE then some cfg.cpu_num else first_cpu env)
        (image_load_seq env cfg.force_raw cfg.addr).2) := by
      refine ⟨?_, ?_, ?_⟩
      · intro hb2
        have hb3 : decide (cfg.cpu_num ≠ CPU_NONE) = true := hb2
        have hne : cfg.cpu_num ≠ CPU_NONE := of_decide_eq_true hb3
        show (if cfg.cpu_num ≠ CPU_NONE then some cfg.cpu_num else first_cpu env).isSome
            = true
        rw [if_pos hne]
        rfl
      · rw [anyDefault_mkResolved]
        simp
      · intro hl2
        have hl3 : cfg.data_len ≠ 0 := hl2
        exact absurd hl hl3
    split
    · rw [reset_eq_model _ _ _ hok]
      dsimp only
      unfold regStep
      rw [hr]
    · unfold regStep
      rw [hr]



/-! ### Concrete environments, configurations and machines -/

/-- One-CPU machine, all loaders failing, machine not yet ready. -/
def baseEnv : GLEnv :=
  { num_cpus := 1, elf_size := -1, elf_entry := 0, uimage_size := -1, uimage_entry := 0,
    hex_size := -1, hex_entry := 0, raw_size := fun _ _ => -1, ram_size := 1024,
    machine_ready := false, loader_effect := id,
    reset_regs := fun _ => List.replicate 8 0, reset_pc := 0 }

/-- The property defaults of `generic_loader_props`. -/
def baseCfg : GLConfig :=
  { addr := 0, data := 0, data_len := 0, data_be := false, cpu_num := CPU_NONE,
    force_raw := false, reg := none, file := none,
    attrs_secure := false, attrs_debug := false, attrs_requester_id := 0 }

/-- A zeroed machine. -/
def mach0 : Machine := { mem := fun _ => 0, regs := fun _ _ => [], pc := fun _ => 0 }

/-- A placeholder resolved state (used only as a `getD` default). -/
def dummyState : ResolvedState := mkResolved baseCfg false none 0

/-! ### C1 -/

def envHot : GLEnv := { baseEnv with machine_ready := true }

def cfgC1a : GLConfig := { baseCfg with data := 1, data_len := 1, cpu_num := 5 }

def cfgC1b : GLConfig :=
  { baseCfg with data := 7, data_len := 1, addr := 100, reg := some ['z', 'z'] }

/-- C1 counterexample: two configurations whose setup fails and yet the
component is not left inert.  With a nonexistent CPU index 5, realize fails
but the reset callback registered just before CPU resolution stays
registered.  With a hot-plugged device whose register name is unparsable,
realize fails after the immediate reset invocation has already written the
literal data (7) to memory address 100, and the callback stays registered. -/
theorem C1_counterexample_not_inert :
    ((generic_loader_realize baseEnv cfgC1a mach0).res = .err (.nonexistentCpu 5) ∧
      (generic_loader_realize baseEnv cfgC1a mach0).registered = true) ∧
    ((generic_loader_realize envHot cfgC1b mach0).res =
        .err (.unsupportedRegister ['z', 'z']) ∧
      (generic_loader_realize envHot cfgC1b mach0).registered = true ∧
      (generic_loader_realize envHot cfgC1b mach0).machine.mem 100 = 7 ∧
      mach0.mem 100 = 0) :=
  ⟨⟨rfl, rfl⟩, rfl, rfl, rfl, rfl⟩

/-- C1 (amended): the registration boundary runs through the middle of
realize.  Failures of the validation ladder (conflicting data/image options,
missing or oversized literal length, missing CPU index in PC mode, no
actionable options) happen before `qemu_register_reset_loader` and leave the
component fully inert — unregistered and with the machine untouched; but the
later failures (nonexistent CPU index, image-load failure, unparsable
register name) leave the reset callback registered. -/
theorem C1_amended_registration_boundary (env : GLEnv) (cfg : GLConfig) (m : Machine)
    (e : GLError) (h : (generic_loader_realize env cfg m).res = .err e) :
    (isLateErr e = false →
      (generic_loader_realize env cfg m).registered = false ∧
      (generic_loader_realize env cfg m).machine = m) ∧
    (isLateErr e = true → (generic_loader_realize env cfg m).registered = true) := by
  unfold generic_loader_realize at h ⊢
  split_ifs at h ⊢ <;>
    first
      | exact ⟨fun _ => ⟨rfl, rfl⟩, fun hlate => by
          simp only [RealizeRes.err.injEq] at h
          rw [← h] at hlate
          exact absurd hlate (by decide)⟩
      | exact ⟨fun hearly =>
            absurd (afterValidation_err_isLate _ _ _ _ _ h) (by simp [hearly]),
          fun _ => afterValidation_registered _ _ _ _⟩

/-- C1 witness: the amended theorem applied to the nonexistent-CPU config. -/
theorem C1_amended_witness :
    (generic_loader_realize baseEnv cfgC1a mach0).registered = true :=
  (C1_amended_registration_boundary baseEnv cfgC1a mach0 (.nonexistentCpu 5) rfl).2 rfl

/-! ### C2 -/

def cfgC2 : GLConfig := { baseCfg with data := 0, data_len := 8 }

/-- C2: realize accepts `data-len = 8` (only `data_len > 8` is rejected),
yet the reset action's internal guard `assert(s->data_len < sizeof(s->data))`
requires `data_len < 8`, so the very first reset of a validated length-8
configuration aborts: the error branch of the write path is reachable under
the validated precondition, contradicting the claim. -/
theorem C2_len8_accepted_then_reset_aborts :
    (generic_loader_realize baseEnv cfgC2 mach0).res.isOk = true ∧
    ((generic_loader_realize baseEnv cfgC2 mach0).res.getOk.map
        (fun s => s.data_len)) = some 8 ∧
    ((generic_loader_realize baseEnv cfgC2 mach0).res.getOk.map
        (fun s => generic_loader_reset baseEnv s mach0)) = some none :=
  ⟨rfl, rfl, rfl⟩

/-! ### C3 -/

def cfgC3 : GLConfig := { baseCfg with data := 42, cpu_num := 0, reg := some ['r', '2'] }

def cfgC3b : GLConfig := { cfgC3 with data_len := 1 }

/-- C3 counterexample: the configuration of the claim,
`{registerName: "r2", literalData: 42, cpuIndex: 0}`, does not even pass
setup — `data` is nonzero but `data-len` was never set, so realize fails
with the missing-length error and no reset invocation happens at all. -/
theorem C3_counterexample_claim_config_fails_setup :
    (generic_loader_realize envHot cfgC3 mach0).res = .err .missingDataLen := rfl

/-- C3 (amended): with the literal length supplied (length 1), setup on an
already-ready machine succeeds and stores the default for register 2, but
the immediate synchronous reset invocation runs before the register default
is stored: it performs the literal write (42 at address 0) while leaving
register 2 of CPU 0 untouched; only a subsequent reset applies the register
default 42. -/
theorem C3_amended_immediate_reset_skips_register_default :
    ((generic_loader_realize envHot cfgC3b mach0).res.getOk.map
        (fun s => s.has_register_defaults 2)) = some true ∧
    (generic_loader_realize envHot cfgC3b mach0).machine.regs 0 2 = mach0.regs 0 2 ∧
    ((generic_loader_realize envHot cfgC3b mach0).res.getOk.map
        (fun s =>
          (generic_loader_reset envHot s
              (generic_loader_realize envHot cfgC3b mach0).machine).map
            (fun mm => Machine.regs mm 0 2))) = some (some (convertData 42 false)) ∧
    (generic_loader_realize envHot cfgC3b mach0).machine.mem 0 = 42 ∧
    mach0.mem 0 = 0 :=
  ⟨rfl, rfl, rfl, rfl, rfl⟩

/-! ### C4 -/

/-- C4: a completed reset writes exactly the first `data_len` bytes of the
endianness-converted value at the target address and touches no byte outside
`[addr, addr + data_len)`; concretely, value `0x1122334455667788` with
length 4 produces the bytes `11 22 33 44` under big-endian conversion and
`88 77 66 55` under little-endian conversion. -/
theorem C4_bounded_endian_write (env : GLEnv) (s : ResolvedState) (m m2 : Machine)
    (hlen8 : s.dataBytes.length = 8)
    (h : generic_loader_reset env s m = some m2) :
    (∀ i, i < s.data_len → m2.mem (s.addr + i) = (s.dataBytes.take s.data_len).getD i 0) ∧
    (∀ a, a < s.addr ∨ s.addr + s.data_len ≤ a → m2.mem a = m.mem a) ∧
    (convertData 0x1122334455667788 true).take 4 = [0x11, 0x22, 0x33, 0x44] ∧
    (convertData 0x1122334455667788 false).take 4 = [0x88, 0x77, 0x66, 0x55] := by
  have hok := reset_some_resetOK env s m m2 h
  have hm : m2 = resetModel env s m := by
    have h2 := reset_eq_model env s m hok
    rw [h] at h2
    exact Option.some.inj h2
  have hmem : ∀ a, m2.mem a =
      if s.data_len ≠ 0 ∧ s.addr ≤ a ∧
          a < s.addr + (s.dataBytes.take s.data_len).length
      then (s.dataBytes.take s.data_len).getD (a - s.addr) 0 else m.mem a := by
    intro a
    rw [hm]
    rfl
  refine ⟨?_, ?_, by decide, by decide⟩
  · intro i hi
    have hlen0 : s.data_len ≠ 0 := by omega
    obtain ⟨h8, -⟩ := hok.2.2 hlen0
    have htake : (s.dataBytes.take s.data_len).length = s.data_len := by
      rw [List.length_take, hlen8]
      omega
    rw [hmem]
    rw [if_pos ⟨hlen0, Nat.le_add_right _ _, by omega⟩]
    have hsub : s.addr + i - s.addr = i := by omega
    rw [hsub]
  · intro a ha
    have htake2 : (s.dataBytes.take s.data_len).length ≤ s.data_len := by
      rw [List.length_take]
      omega
    rw [hmem]
    rw [if_neg]
    rintro ⟨h1, h2, h3⟩
    omega

def sC4w : ResolvedState :=
  { set_pc := false, cpu := some 0, addr := 100,
    dataBytes := convertData 0x1122334455667788 true, data_len := 4,
    has_register_defaults := fun _ => false, register_defaults := fun _ => [],
    attrs := ⟨false, false, 0⟩ }

def mC4w : Machine := writeMem 100 ((convertData 0x1122334455667788 true).take 4) mach0

/-- C4 witness: the theorem applied to a concrete big-endian length-4
write at address 100. -/
theorem C4_bounded_endian_write_witness :
    mC4w.mem (sC4w.addr + 2) = (sC4w.dataBytes.take sC4w.data_len).getD 2 0 :=
  (C4_bounded_endian_write baseEnv sC4w mach0 mC4w rfl rfl).1 2 (by decide)

/-! ### C9 -/

/-- C9: the reset action is idempotent — if one invocation completes and
produces machine state `m2`, invoking it again from `m2` completes and
leaves `m2` unchanged, because the PC override, the register-default writes
and the literal write are pure overwrites with values fixed at setup time. -/
theorem C9_reset_idempotent (env : GLEnv) (s : ResolvedState) (m m2 : Machine)
    (h : generic_loader_reset env s m = some m2) :
    generic_loader_reset env s m2 = some m2 := by
  have hok := reset_some_resetOK env s m m2 h
  have hm : m2 = resetModel env s m := by
    have h2 := reset_eq_model env s m hok
    rw [h] at h2
    exact Option.some.inj h2
  rw [reset_eq_model env s m2 hok, hm, resetModel_idem]

def sC9w : ResolvedState :=
  { set_pc := false, cpu := some 0, addr := 0, dataBytes := convertData 0 false,
    data_len := 0, has_register_defaults := fun i => i == 2,
    register_defaults := fun _ => List.replicate 8 7, attrs := ⟨false, false, 0⟩ }

def mC9w : Machine := applyRegDefaults sC9w 0 mach0

/-- C9 witness: idempotence at a concrete state with a populated register
default. -/
theorem C9_reset_idempotent_witness :
    generic_loader_reset baseEnv sC9w mC9w = some mC9w :=
  C9_reset_idempotent baseEnv sC9w mach0 mC9w rfl

/-! ### C10 -/

/-- C10: the image is consumed by realize only; for an image-load
configuration with no CPU index, no literal data and no register name, the
state left for the reset callback has `set_pc` false, no data and no
register defaults, and the per-reset action is a no-op — it succeeds and
returns the machine unchanged under every environment, in particular never
re-invoking any loader. -/
theorem C10_reset_noop_in_pure_image_mode (env : GLEnv) (cfg : GLConfig) (m : Machine)
    (f : List Char) (hf : cfg.file = some f) (hc : cfg.cpu_num = CPU_NONE)
    (hd : cfg.data = 0) (hl : cfg.data_len = 0) (hb : cfg.data_be = false)
    (hr : cfg.reg = none) :
    ∀ s, (generic_loader_realize env cfg m).res = .ok s →
      s.set_pc = false ∧ s.data_len = 0 ∧
      (∀ i, s.has_register_defaults i = false) ∧
      ∀ (env2 : GLEnv) (m2 : Machine), generic_loader_reset env2 s m2 = some m2 := by
  intro s hs
  have himg := realize_image_mode env cfg m f hf hd hl hb hr (Or.inl hc)
  by_cases hneg : (image_load_seq env cfg.force_raw cfg.addr).1 < 0
  · rw [himg.1 hneg] at hs
    simp at hs
  · rw [himg.2 (by omega)] at hs
    simp only [RealizeRes.ok.injEq] at hs
    have hb2 : decide (cfg.cpu_num ≠ CPU_NONE) = false := by
      simp [hc]
    rw [← hs]
    refine ⟨?_, ?_, ?_, ?_⟩
    · show decide (cfg.cpu_num ≠ CPU_NONE) = false
      exact hb2
    · exact hl
    · intro i
      rfl
    · intro env2 m2
      refine reset_trivial env2 _ ?_ ?_ ?_ m2
      · show decide (cfg.cpu_num ≠ CPU_NONE) = false
        exact hb2
      · exact hl
      · intro i
        rfl

def envElf : GLEnv := { baseEnv with elf_size := 10, elf_entry := 0x40000000 }

def cfgC10w : GLConfig := { baseCfg with file := some ['k'] }

def sC10w : ResolvedState :=
  ((generic_loader_realize envElf cfgC10w mach0).res.getOk).getD dummyState

/-- C10 witness: the theorem applied to a successful ELF load with no CPU
index; the reset action leaves the zeroed machine unchanged. -/
theorem C10_reset_noop_witness :
    generic_loader_reset baseEnv sC10w mach0 = some mach0 :=
  (C10_reset_noop_in_pure_image_mode envElf cfgC10w mach0 ['k']
      rfl rfl rfl rfl rfl rfl sC10w rfl).2.2.2 baseEnv mach0

/-! ### C5 -/

/-- C5: the image-load attempt sequence.  Without `force_raw` the loaders
run in the fixed order ELF, U-Boot image, hex records, raw binary; the first
attempt reporting a non-negative size wins; the raw attempt is invoked with
the machine RAM size as its cap and leaves the configured address unchanged,
while a structured success makes its entry point the effective address (as
realize's resolved state records); with `force_raw` only the raw load runs;
and when the final attempt reports a negative size, realize fails with the
image-load error. -/
theorem C5_loader_sequence (env : GLEnv) (cfg : GLConfig) (m : Machine) (f : List Char)
    (hf : cfg.file = some f) (hd : cfg.data = 0) (hl : cfg.data_len = 0)
    (hb : cfg.data_be = false) (hr : cfg.reg = none)
    (hcpu : cfg.cpu_num = CPU_NONE ∨ cfg.cpu_num < env.num_cpus) :
    (0 ≤ env.elf_size →
      ∀ a, image_load_seq env false a = (env.elf_size, env.elf_entry)) ∧
    (env.elf_size < 0 → 0 ≤ env.uimage_size →
      ∀ a, image_load_seq env false a = (env.uimage_size, env.uimage_entry)) ∧
    (env.elf_size < 0 → env.uimage_size < 0 → 0 ≤ env.hex_size →
      ∀ a, image_load_seq env false a = (env.hex_size, env.hex_entry)) ∧
    (env.elf_size < 0 → env.uimage_size < 0 → env.hex_size < 0 →
      ∀ a, image_load_seq env false a = (env.raw_size a env.ram_size, a)) ∧
    (∀ a, image_load_seq env true a = (env.raw_size a env.ram_size, a)) ∧
    ((image_load_seq env cfg.force_raw cfg.addr).1 < 0 →
      (generic_loader_realize env cfg m).res = .err (.cannotLoadImage f)) ∧
    (0 ≤ (image_load_seq env cfg.force_raw cfg.addr).1 →
      ((generic_loader_realize env cfg m).res.getOk.map (fun s => s.addr)) =
        some (image_load_seq env cfg.force_raw cfg.addr).2) := by
  have himg := realize_image_mode env cfg m f hf hd hl hb hr hcpu
  refine ⟨?_, ?_, ?_, ?_, ?_, himg.1, ?_⟩
  · intro h a
    unfold image_load_seq
    have h1 : ¬ env.elf_size < 0 := by omega
    simp [h1]
  · intro h1 h2 a
    unfold image_load_seq
    have h3 : ¬ env.uimage_size < 0 := by omega
    simp [h1, h3]
  · intro h1 h2 h3 a
    unfold image_load_seq
    have h4 : ¬ env.hex_size < 0 := by omega
    simp [h1, h2, h4]
  · intro h1 h2 h3 a
    unfold image_load_seq
    simp [h1, h2, h3]
  · intro a
    unfold image_load_seq
    simp
  · intro hpos
    rw [himg.2 hpos]
    rfl

def cfgC5w : GLConfig := { baseCfg with file := some ['k'], cpu_num := 0 }

/-- C5 witness: with a succeeding ELF loader the sequence stops at the
first attempt and reports its entry point. -/
theorem C5_loader_sequence_witness :
    image_load_seq envElf false 7 = (10, 0x40000000) :=
  (C5_loader_sequence envElf cfgC5w mach0 ['k'] rfl rfl rfl rfl rfl
      (Or.inr (by decide))).1 (by decide) 7

/-! ### C6 -/

/-- C6: any configuration with a data-related field set (nonzero literal
data, nonzero length, or the big-endian flag) together with an image path or
the force-raw flag fails in validation rule 1 with one of the two
data-and-image-conflict errors, before registration (registered = false, so
before any later rule can report); in particular an image path together with
a nonzero literal length always yields the file-with-data conflict error. -/
theorem C6_conflict_checked_first (env : GLEnv) (cfg : GLConfig) (m : Machine)
    (hd : cfg.data ≠ 0 ∨ cfg.data_len ≠ 0 ∨ cfg.data_be = true)
    (hi : cfg.file.isSome = true ∨ cfg.force_raw = true) :
    ((generic_loader_realize env cfg m).res = .err .fileWithData ∨
      (generic_loader_realize env cfg m).res = .err .forceRawWithData) ∧
    (generic_loader_realize env cfg m).registered = false ∧
    (cfg.file.isSome = true →
      (generic_loader_realize env cfg m).res = .err .fileWithData) := by
  unfold generic_loader_realize
  rw [if_pos hd]
  by_cases hfile : cfg.file.isSome = true
  · rw [if_pos hfile]
    exact ⟨Or.inl rfl, rfl, fun _ => rfl⟩
  · have hforce : cfg.force_raw = true := hi.resolve_left hfile
    rw [if_neg hfile, if_pos hforce]
    exact ⟨Or.inr rfl, rfl, fun hc => absurd hc hfile⟩

def cfgC6w : GLConfig := { baseCfg with data_len := 1, file := some ['k'] }

/-- C6 witness: an image path plus a nonzero literal length is rejected
with the file-with-data conflict. -/
theorem C6_conflict_witness :
    (generic_loader_realize baseEnv cfgC6w mach0).res = .err .fileWithData :=
  (C6_conflict_checked_first baseEnv cfgC6w mach0
      (Or.inr (Or.inl (by decide))) (Or.inl (by decide))).2.2 (by decide)

/-! ### C7 -/

def envNoCpu : GLEnv := { baseEnv with num_cpus := 0 }

def cfgC7 : GLConfig := { baseCfg with data := 0, data_len := 1 }

/-- C7 counterexample: on a machine with no CPUs, a data-write setup with
the unspecified CPU sentinel succeeds while resolving the CPU handle to
null (`first_cpu` is null), and the reset action then crashes on the null
CPU's address space — refuting "never null once setup succeeds". -/
theorem C7_counterexample_null_first_cpu :
    ((generic_loader_realize envNoCpu cfgC7 mach0).res.getOk.map
        (fun s => s.cpu)) = some none ∧
    ((generic_loader_realize envNoCpu cfgC7 mach0).res.getOk.map
        (fun s => generic_loader_reset envNoCpu s mach0)) = some none :=
  ⟨rfl, rfl⟩

/-- C7 (amended): the resolved CPU handle is non-null after a successful
setup provided a concrete CPU index was given, or the machine has at least
one CPU for the sentinel fallback to `first_cpu`. -/
theorem C7_amended_cpu_resolution (env : GLEnv) (cfg : GLConfig) (m : Machine)
    (s : ResolvedState) (h : (generic_loader_realize env cfg m).res = .ok s)
    (hc : cfg.cpu_num ≠ CPU_NONE ∨ 0 < env.num_cpus) :
    s.cpu.isSome = true := by
  obtain ⟨b, cpu, addr, m2, hcpu, hstep⟩ := realize_ok_shape env cfg m s h
  have hs : s.cpu = cpu := by
    rw [regStep_ok_cpu cfg _ m2 s hstep]
    rfl
  rcases hcpu with ⟨hne, c, hq, hcv⟩ | ⟨heq, hcv⟩
  · rw [hs, hcv]
    rfl
  · rcases hc with hne | hpos
    · exact absurd heq hne
    · rw [hs, hcv]
      unfold first_cpu
      rw [if_pos hpos]
      rfl

def sC7w : ResolvedState :=
  ((generic_loader_realize baseEnv cfgC7 mach0).res.getOk).getD dummyState

/-- C7 witness: on a one-CPU machine the sentinel resolves to a non-null
first CPU. -/
theorem C7_amended_witness : sC7w.cpu.isSome = true :=
  C7_amended_cpu_resolution baseEnv cfgC7 mach0 sC7w rfl (Or.inr (by decide))

/-! ### C8 -/

def cfgC8 : GLConfig :=
  { baseCfg with data := 1, data_len := 1, reg := some ['r', '2', 'x'] }

/-- C8 counterexample: the register name "r2x" — the letter r, digits, then
a trailing character — is accepted by `sscanf("r%d")`, which ignores
trailing input: setup succeeds and seeds register slot 2, instead of
failing with the unsupported-register error as the claim requires. -/
theorem C8_counterexample_trailing_chars_accepted :
    (generic_loader_realize baseEnv cfgC8 mach0).res.isOk = true ∧
    ((generic_loader_realize baseEnv cfgC8 mach0).res.getOk.map
        (fun s => s.has_register_defaults 2)) = some true :=
  ⟨rfl, rfl⟩

/-- C8 (amended): register-name handling follows `sscanf` semantics.  A
successful setup with a register name implies the scan after the literal r
produced an integer in `0..30` (whitespace and a sign may precede the
digits, trailing characters are ignored), and exactly that slot received
the endianness-converted literal value; when the scan fails or the index is
out of range, the register step reports the unsupported-register error and
setup never succeeds. -/
theorem C8_amended_sscanf_semantics (env : GLEnv) (cfg : GLConfig) (m : Machine)
    (r : List Char) (hr : cfg.reg = some r) :
    (∀ s, (generic_loader_realize env cfg m).res = .ok s →
      ∃ n : Int, sscanf_r_d r = some n ∧ 0 ≤ n ∧ n < 31 ∧
        s.has_register_defaults n.toNat = true ∧
        s.register_defaults n.toNat = convertData cfg.data cfg.data_be ∧
        ∀ j, j ≠ n.toNat → s.has_register_defaults j = false) ∧
    ((sscanf_r_d r = none ∨ ∀ n : Int, sscanf_r_d r = some n → ¬ (0 ≤ n ∧ n < 31)) →
      (∀ s0 m2, (regStep cfg s0 m2).res = .err (.unsupportedRegister r)) ∧
      ∀ s, (generic_loader_realize env cfg m).res ≠ .ok s) := by
  have hok : ∀ s, (generic_loader_realize env cfg m).res = .ok s →
      ∃ n : Int, sscanf_r_d r = some n ∧ 0 ≤ n ∧ n < 31 ∧
        s.has_register_defaults n.toNat = true ∧
        s.register_defaults n.toNat = convertData cfg.data cfg.data_be ∧
        ∀ j, j ≠ n.toNat → s.has_register_defaults j = false := by
    intro s hs
    obtain ⟨b, cpu, addr, m2, -, hstep⟩ := realize_ok_shape env cfg m s hs
    rcases regStep_ok_shape cfg _ m2 s hstep with ⟨hnone, -⟩ | ⟨r2, n, hr2, hscan, hn0, hn31, hval⟩
    · rw [hr] at hnone
      exact absurd hnone (by simp)
    · rw [hr] at hr2
      have hrr : r2 = r := by
        simpa using hr2.symm
      refine ⟨n, by rw [← hrr]; exact hscan, hn0, hn31, ?_, ?_, ?_⟩
      · rw [hval]
        simp
      · rw [hval]
        simp [mkResolved]
      · intro j hj
        rw [hval]
        simp only [hj, if_false]
        rfl
  refine ⟨hok, ?_⟩
  intro hbad
  have hreg2 : ∀ s0 m2, (regStep cfg s0 m2).res = .err (.unsupportedRegister r) := by
    intro s0 m2
    unfold regStep
    rw [hr]
    dsimp only
    rcases hscan : sscanf_r_d r with _ | n
    · rfl
    · dsimp only
      rcases hbad with hnone | hall
      · rw [hscan] at hnone
        exact absurd hnone (by simp)
      · rw [if_neg (hall n hscan)]
  refine ⟨hreg2, ?_⟩
  intro s hs
  obtain ⟨n, hscan, hn0, hn31, -⟩ := hok s hs
  rcases hbad with hnone | hall
  · rw [hscan] at hnone
    exact absurd hnone (by simp)
  · exact hall n hscan ⟨hn0, hn31⟩

def cfgC8w : GLConfig :=
  { baseCfg with data := 3, data_len := 1, reg := some ['r', '5'] }

def sC8w : ResolvedState :=
  ((generic_loader_realize baseEnv cfgC8w mach0).res.getOk).getD dummyState

/-- C8 witness: the amended theorem applied to the well-formed name "r5". -/
theorem C8_amended_witness :
    ∃ n : Int, sscanf_r_d ['r', '5'] = some n ∧ 0 ≤ n ∧ n < 31 ∧
      sC8w.has_register_defaults n.toNat = true ∧
      sC8w.register_defaults n.toNat = convertData cfgC8w.data cfgC8w.data_be ∧
      ∀ j, j ≠ n.toNat → sC8w.has_register_defaults j = false :=
  (C8_amended_sscanf_semantics baseEnv cfgC8w mach0 ['r', '5'] rfl).1 sC8w rfl

end GenericLoader
